import Mathlib

/-!
Verification of the credential-lifecycle and status-check core of the
Netcup VPS throttle monitor (`plugins.v2/vpsmonitor/__init__.py`).

The Python code stores per-account token fields in plain dicts and uses
Python truthiness tests on them (`if not at`, `exp and ...`,
`data.get(x) or y`).  We embed those fields as `Option` values and model
Python truthiness explicitly: a string field is "truthy" when it is
present and non-empty, an integer field when it is present and non-zero.
-/

/-- Python truthiness of an optional string (`None` and `""` are falsy). -/
def pyStr (o : Option String) : Bool :=
  match o with
  | none => false
  | some s => !(s == "")

/-- Python truthiness of an optional integer (`None` and `0` are falsy). -/
def pyInt (o : Option Int) : Bool :=
  match o with
  | none => false
  | some n => !(n == 0)

/-- The per-account token triple `rest_access_token` / `rest_refresh_token` /
`rest_token_expires_at` (epoch seconds). -/
structure TokenSet where
  access_token : Option String
  refresh_token : Option String
  expires_at : Option Int
deriving Repr, DecidableEq

/-- Body of a 200 response from the `openid-connect/token` refresh exchange. -/
structure RefreshResp where
  access_token : Option String
  refresh_token : Option String
  expires_in : Option Int
deriving Repr, DecidableEq

/-- Outcome of the refresh POST: a network error / exception, or an HTTP
response with a status code and parsed JSON body. -/
inductive RefreshOutcome where
  | netErr
  | http (status : Int) (body : RefreshResp)
deriving Repr, DecidableEq

/-- `expires_in = data.get('expires_in') or 300` followed by `int(...)`:
a present non-zero value is used, otherwise the 300-second default. -/
def effExpiresIn (o : Option Int) : Int :=
  match o with
  | none => 300
  | some n => if n = 0 then 300 else n

/-- `_refresh_for_account(acc)` (the closure inside `_run_check`, lines
495-522; `_refresh_access_token` at 428-457 is the same logic on the global
fields).  Returns the Python function's boolean result together with the
token fields after the call.  `now` is `int(time.time())` at the moment of
a successful exchange. -/
def refreshForAccount (now : Int) (o : RefreshOutcome) (ts : TokenSet) : Bool × TokenSet :=
  if pyStr ts.refresh_token = false then
    (false, ts)
  else
    match o with
    | RefreshOutcome.netErr => (false, ts)
    | RefreshOutcome.http status body =>
      if status ≠ 200 then (false, ts)
      else
        (true,
         { access_token := body.access_token,
           refresh_token :=
             if pyStr body.refresh_token then body.refresh_token else ts.refresh_token,
           expires_at := some (now + effExpiresIn body.expires_in) })

/-- Claim C2: if the refresh exchange returns a non-200 response or raises,
`_refresh_for_account` reports failure (returns `False`) and the stored
token triple is exactly what it was before the call (no piecemeal
overwrite).  (When the exchange raises, no assignment has run yet; when the
status is not 200, the function returns before any assignment.) -/
theorem refresh_failure_leaves_tokens_unchanged (now : Int) (ts : TokenSet)
    (o : RefreshOutcome)
    (h : o = RefreshOutcome.netErr ∨ ∃ s b, o = RefreshOutcome.http s b ∧ s ≠ 200) :
    refreshForAccount now o ts = (false, ts) := by
  rcases h with h | ⟨s, b, rfl, hs⟩
  · subst h
    unfold refreshForAccount
    split <;> rfl
  · unfold refreshForAccount
    split
    · rfl
    · simp [hs]

/-- Witness for C2: a concrete 503 refresh response against a concrete
stored triple leaves it untouched and reports failure. -/
theorem refresh_failure_leaves_tokens_unchanged_witness :
    refreshForAccount 1000
      (RefreshOutcome.http 503 ⟨some "x", some "y", some 60⟩)
      ⟨some "oldAT", some "oldRT", some 900⟩ =
      (false, ⟨some "oldAT", some "oldRT", some 900⟩) :=
  refresh_failure_leaves_tokens_unchanged 1000
    ⟨some "oldAT", some "oldRT", some 900⟩
    (RefreshOutcome.http 503 ⟨some "x", some "y", some 60⟩)
    (Or.inr ⟨503, ⟨some "x", some "y", some 60⟩, rfl, by decide⟩)

/-- Claim C7: on a successful (200) refresh exchange the stored
access_token becomes the response's access_token; the stored refresh_token
becomes the response's refresh_token, falling back to the previously
stored one when the response omits it (absent or empty — Python
truthiness, so the newest refresh token returned always replaces the
stored one); expires_at becomes now + expires_in, with the 300-second
default when the response omits expires_in. -/
theorem refresh_success_updates_tokens (now : Int) (ts : TokenSet) (b : RefreshResp)
    (hrt : pyStr ts.refresh_token = true) :
    (refreshForAccount now (RefreshOutcome.http 200 b) ts).1 = true ∧
    (refreshForAccount now (RefreshOutcome.http 200 b) ts).2.access_token = b.access_token ∧
    (pyStr b.refresh_token = true →
      (refreshForAccount now (RefreshOutcome.http 200 b) ts).2.refresh_token = b.refresh_token) ∧
    (pyStr b.refresh_token = false →
      (refreshForAccount now (RefreshOutcome.http 200 b) ts).2.refresh_token = ts.refresh_token) ∧
    (∀ n : Int, b.expires_in = some n → n ≠ 0 →
      (refreshForAccount now (RefreshOutcome.http 200 b) ts).2.expires_at = some (now + n)) ∧
    ((b.expires_in = none ∨ b.expires_in = some 0) →
      (refreshForAccount now (RefreshOutcome.http 200 b) ts).2.expires_at = some (now + 300)) := by
  unfold refreshForAccount
  simp only [hrt]
  refine ⟨by simp, by simp, ?_, ?_, ?_, ?_⟩
  · intro hb; simp [hb]
  · intro hb; simp [hb]
  · intro n hn hz
    simp [effExpiresIn, hn, hz]
  · intro hb
    rcases hb with hb | hb <;> simp [effExpiresIn, hb]

/-- Witness for C7 at a concrete input: the response carries a new access
token, omits the refresh token and the expiry, so the old refresh token is
kept and the 300-second default is applied. -/
theorem refresh_success_updates_tokens_witness :
    (refreshForAccount 1000 (RefreshOutcome.http 200 ⟨some "newAT", none, none⟩)
        ⟨some "oldAT", some "oldRT", some 900⟩).2.refresh_token = some "oldRT" ∧
    (refreshForAccount 1000 (RefreshOutcome.http 200 ⟨some "newAT", none, none⟩)
        ⟨some "oldAT", some "oldRT", some 900⟩).2.expires_at = some (1000 + 300) := by
  have h := refresh_success_updates_tokens 1000
    ⟨some "oldAT", some "oldRT", some 900⟩ ⟨some "newAT", none, none⟩ (by decide)
  exact ⟨h.2.2.2.1 (by decide), h.2.2.2.2.2 (Or.inl rfl)⟩

/-!
## The multi-account REST status check (`_run_check`, lines 474-701)

One REST account is processed against an environment of scripted provider
responses: a queue of refresh-exchange outcomes, a queue of responses for
the servers-list endpoint and a queue of responses for the per-server
interfaces endpoint (`none` = network error / exception during the GET).
Every refresh call and every GET is recorded in an event trace so that
ordering and counting claims can be stated.
-/

/-- One entry of the servers list returned by `GET /api/v1/servers`. -/
structure Server where
  id : Option String
  serverId : Option String
  uuid : Option String
  vServerName : Option String
  hostname : Option String
  ips : Option (List String)
deriving Repr, DecidableEq

/-- One entry of the interface list of a server.  `trafficThrottled` is
compared with `is True`, so only a genuine boolean `true` counts. -/
structure Iface where
  trafficThrottled : Option Bool
  ipv4IP : Option (List String)
deriving Repr, DecidableEq

/-- JSON returned by the servers endpoint: a bare array, a dict wrapping
the array under the key `servers` (`none` when the wrapped value is not a
list), or anything else. -/
inductive SrvJson where
  | arr (l : List Server)
  | wrapped (v : Option (List Server))
  | bad
deriving Repr, DecidableEq

/-- Unwrap rule of lines 556-560: a dict is unwrapped at key `servers`;
the final value must be a list, otherwise the code raises
(`REST 返回格式异常`). -/
def unwrapSrv : SrvJson → Option (List Server)
  | SrvJson.arr l => some l
  | SrvJson.wrapped (some l) => some l
  | SrvJson.wrapped none => none
  | SrvJson.bad => none

/-- JSON returned by the interfaces endpoint (lines 580-584): a dict is
unwrapped at key `interfaces` with `or []`; a non-list top level becomes
the empty list — this endpoint never raises on shape. -/
inductive IfJson where
  | arr (l : List Iface)
  | wrapped (v : Option (List Iface))
  | bad
deriving Repr, DecidableEq

def unwrapIf : IfJson → List Iface
  | IfJson.arr l => l
  | IfJson.wrapped (some l) => l
  | IfJson.wrapped none => []
  | IfJson.bad => []

/-- Observable events of one account's REST check. -/
inductive Ev where
  | refreshCall
  | getServers
  | getIfaces
deriving Repr, DecidableEq

/-- State of one account's REST check: current token fields plus the
scripted environment queues and the event trace. -/
structure St where
  ts : TokenSet
  refreshQ : List RefreshOutcome
  srvQ : List (Option (Int × SrvJson))
  itfQ : List (Option (Int × IfJson))
  trace : List Ev
deriving Repr, DecidableEq

/-- Invoke `_refresh_for_account`: records the call, consumes the next
scripted exchange outcome when the account has a (truthy) refresh token —
without one the Python function returns `False` before any HTTP call. -/
def popRefresh (now : Int) (st : St) : Bool × St :=
  if pyStr st.ts.refresh_token then
    let r := refreshForAccount now (st.refreshQ.headD RefreshOutcome.netErr) st.ts
    (r.1, { st with ts := r.2, refreshQ := st.refreshQ.tail,
                    trace := st.trace ++ [Ev.refreshCall] })
  else
    (false, { st with trace := st.trace ++ [Ev.refreshCall] })

/-- One GET of the servers endpoint (`none` = the request raised). -/
def popSrv (st : St) : Option (Int × SrvJson) × St :=
  (st.srvQ.headD none,
   { st with srvQ := st.srvQ.tail, trace := st.trace ++ [Ev.getServers] })

/-- One GET of an interfaces endpoint (`none` = the request raised). -/
def popItf (st : St) : Option (Int × IfJson) × St :=
  (st.itfQ.headD none,
   { st with itfQ := st.itfQ.tail, trace := st.trace ++ [Ev.getIfaces] })

/-- `requests` raises from `raise_for_status()` exactly for 4xx/5xx. -/
def httpFail (s : Int) : Prop := 400 ≤ s ∧ s < 600

instance (s : Int) : Decidable (httpFail s) := by
  unfold httpFail; infer_instance

/-- Lines 551-555: GET the servers list; on a 401 response refresh once
and, only if the refresh succeeded, repeat the request once; then
`raise_for_status()`. -/
def getSrvRetry (now : Int) (st : St) : Except Unit SrvJson × St :=
  match popSrv st with
  | (none, st1) => (Except.error (), st1)
  | (some (status, j), st1) =>
    if status = 401 then
      match popRefresh now st1 with
      | (true, st2) =>
        match popSrv st2 with
        | (none, st3) => (Except.error (), st3)
        | (some (s2, j2), st3) =>
          if httpFail s2 then (Except.error (), st3) else (Except.ok j2, st3)
      | (false, st2) => (Except.error (), st2)
    else if httpFail status then (Except.error (), st1)
    else (Except.ok j, st1)

/-- Lines 575-579: the same single-refresh single-retry pattern for one
server's interfaces request. -/
def getItfRetry (now : Int) (st : St) : Except Unit IfJson × St :=
  match popItf st with
  | (none, st1) => (Except.error (), st1)
  | (some (status, j), st1) =>
    if status = 401 then
      match popRefresh now st1 with
      | (true, st2) =>
        match popItf st2 with
        | (none, st3) => (Except.error (), st3)
        | (some (s2, j2), st3) =>
          if httpFail s2 then (Except.error (), st3) else (Except.ok j2, st3)
      | (false, st2) => (Except.error (), st2)
    else if httpFail status then (Except.error (), st1)
    else (Except.ok j, st1)

/-- `exp and now >= int(exp) - 60` (line 540): the stored expiry is
consulted only when truthy (present and non-zero). -/
def expiryDue (now : Int) (exp : Option Int) : Bool :=
  match exp with
  | none => false
  | some e => !(e == 0) && decide (now ≥ e - 60)

/-- Token-readiness block of lines 531-543: no (truthy) access token but a
refresh token → refresh; else expiry due within 60 seconds → refresh; else
nothing. -/
def ensurePhase (now : Int) (st : St) : St :=
  if !(pyStr st.ts.access_token) && pyStr st.ts.refresh_token then
    (popRefresh now st).2
  else if expiryDue now st.ts.expires_at then
    (popRefresh now st).2
  else
    st

/-!
## Throttle decision per server (lines 562-595)
-/

/-- `':' in ip` — membership of the colon character in the address. -/
def hasColon (s : String) : Bool := s.data.contains ':'

/-- The inner loop of `first_ipv4`: the first address without a colon. -/
def firstV4Loop : List String → Option String
  | [] => none
  | ip :: rest => if hasColon ip then firstV4Loop rest else some ip

/-- `first_ipv4(v)` (lines 562-567): first colon-free address of the
server's own `ips` list, else the first address, else the sentinel. -/
def first_ipv4 (ips : List String) : String :=
  match firstV4Loop ips with
  | some ip => ip
  | none =>
    match ips with
    | [] => "未知"
    | x :: _ => x

/-- The `for iface in interfaces` loop of lines 585-593: stops at the
first interface whose `trafficThrottled` is identically `True`; if that
interface carries a non-empty `ipv4IP` list its first entry replaces the
default primary address. -/
def throttleScan (d : String) : List Iface → Bool × String
  | [] => (false, d)
  | i :: rest =>
    if i.trafficThrottled == some true then
      (true,
       match i.ipv4IP.getD [] with
       | [] => d
       | x :: _ => x)
    else throttleScan d rest

/-- Throttle decision for one server entry and its interface list. -/
def checkServer (sv : Server) (ifaces : List Iface) : Bool × String :=
  throttleScan (first_ipv4 (sv.ips.getD [])) ifaces

/-- `a or b` on two optional strings (Python truthiness). -/
def pyOrS (a b : Option String) : Option String := if pyStr a then a else b

/-- `sv.get('id') or sv.get('serverId') or sv.get('uuid') or sv.get('vServerName')`. -/
def serverSid (sv : Server) : Option String :=
  pyOrS sv.id (pyOrS sv.serverId (pyOrS sv.uuid sv.vServerName))

/-- `sv.get('vServerName') or sv.get('hostname') or sid`. -/
def serverSname (sv : Server) : Option String :=
  pyOrS sv.vServerName (pyOrS sv.hostname (serverSid sv))

/-- `f"• {sname} ({primary_ip})"`. -/
def mkEntry (sname primary : String) : String := "• " ++ sname ++ " (" ++ primary ++ ")"

/-- The `for sv in servers` loop (lines 570-595).  A raised exception in a
per-server interfaces request aborts the loop (the enclosing `try` of line
550 catches it at account level), discarding every entry collected so
far. -/
def serverLoop (now : Int) : List Server → St → Except Unit (List String) × St
  | [], st => (Except.ok [], st)
  | sv :: rest, st =>
    if pyStr (serverSid sv) then
      match getItfRetry now st with
      | (Except.error (), st1) => (Except.error (), st1)
      | (Except.ok j, st1) =>
        match serverLoop now rest st1 with
        | (Except.error (), st2) => (Except.error (), st2)
        | (Except.ok l, st2) =>
          (Except.ok
            (if (throttleScan (first_ipv4 (sv.ips.getD [])) (unwrapIf j)).1 then
               mkEntry ((serverSname sv).getD "")
                 (throttleScan (first_ipv4 (sv.ips.getD [])) (unwrapIf j)).2 :: l
             else l), st2)
    else serverLoop now rest st

/-- Result of processing one REST account inside `_run_check`. -/
inductive RestOutcome where
  | notAuthorized
  | callFailed
  | ok (throttled : List String) (total : Nat)
deriving Repr, DecidableEq

/-- Processing of one REST account (lines 527-600): the token-readiness
block, the skip-with-warning when no access token resulted, the servers
request, the unwrap check, and the per-server loop.  `notAuthorized`
stands for the `未授权 REST` warning, `callFailed` for the
`REST 调用失败` warning of the account-level `except`. -/
def runRestAccountFrom (now : Int) (st : St) : RestOutcome × St :=
  if !(pyStr st.ts.access_token) then (RestOutcome.notAuthorized, st)
  else
    match getSrvRetry now st with
    | (Except.error (), st1) => (RestOutcome.callFailed, st1)
    | (Except.ok j, st1) =>
      match unwrapSrv j with
      | none => (RestOutcome.callFailed, st1)
      | some servers =>
        match serverLoop now servers st1 with
        | (Except.error (), st2) => (RestOutcome.callFailed, st2)
        | (Except.ok throttled, st2) => (RestOutcome.ok throttled servers.length, st2)

def runRestAccount (now : Int) (st0 : St) : RestOutcome × St :=
  runRestAccountFrom now (ensurePhase now st0)

example :
    checkServer
      { id := some "s1", serverId := none, uuid := none,
        vServerName := some "v1", hostname := none, ips := some ["1.2.3.4"] }
      [{ trafficThrottled := some true, ipv4IP := some ["5.6.7.8"] }] =
      (true, "5.6.7.8") := by decide

example :
    checkServer
      { id := some "s2", serverId := none, uuid := none,
        vServerName := none, hostname := none, ips := some ["9.9.9.9"] }
      [{ trafficThrottled := some false, ipv4IP := none }] =
      (false, "9.9.9.9") := by decide

/-!
## Trace lemmas
-/

theorem popRefresh_trace (now : Int) (st : St) :
    ((popRefresh now st).2).trace = st.trace ++ [Ev.refreshCall] := by
  unfold popRefresh
  split <;> rfl

theorem popRefresh_itfQ (now : Int) (st : St) :
    ((popRefresh now st).2).itfQ = st.itfQ := by
  unfold popRefresh
  split <;> rfl

theorem popRefresh_srvQ (now : Int) (st : St) :
    ((popRefresh now st).2).srvQ = st.srvQ := by
  unfold popRefresh
  split <;> rfl

/-- The servers-endpoint getter emits one GET, or a GET followed by a
refresh, or GET-refresh-GET — never anything else. -/
theorem getSrvRetry_trace (now : Int) (st : St) :
    ((getSrvRetry now st).2).trace = st.trace ++ [Ev.getServers] ∨
    ((getSrvRetry now st).2).trace = st.trace ++ [Ev.getServers, Ev.refreshCall] ∨
    ((getSrvRetry now st).2).trace =
      st.trace ++ [Ev.getServers, Ev.refreshCall, Ev.getServers] := by
  unfold getSrvRetry popSrv
  split
  · rename_i st3 heq
    injection heq with h1 h2
    subst h2
    left; rfl
  · rename_i status j st1 heq
    injection heq with h1 h2
    subst h2
    split
    · split
      · rename_i st2 heq2
        have hst2 := congrArg Prod.snd heq2
        simp only [] at hst2
        split
        · rename_i st3 heq3
          injection heq3 with h3 h4
          subst h4
          right; right
          simp [← hst2, popRefresh_trace]
        · rename_i s2 j2 st3 heq3
          injection heq3 with h3 h4
          subst h4
          split
          · right; right
            simp [← hst2, popRefresh_trace]
          · right; right
            simp [← hst2, popRefresh_trace]
      · rename_i st2 heq2
        have hst2 := congrArg Prod.snd heq2
        simp only [] at hst2
        right; left
        simp [← hst2, popRefresh_trace]
    · split
      · left; rfl
      · left; rfl

/-- The interfaces-endpoint getter emits one GET, or GET-refresh, or
GET-refresh-GET. -/
theorem getItfRetry_trace (now : Int) (st : St) :
    ((getItfRetry now st).2).trace = st.trace ++ [Ev.getIfaces] ∨
    ((getItfRetry now st).2).trace = st.trace ++ [Ev.getIfaces, Ev.refreshCall] ∨
    ((getItfRetry now st).2).trace =
      st.trace ++ [Ev.getIfaces, Ev.refreshCall, Ev.getIfaces] := by
  unfold getItfRetry popItf
  split
  · rename_i st3 heq
    injection heq with h1 h2
    subst h2
    left; rfl
  · rename_i status j st1 heq
    injection heq with h1 h2
    subst h2
    split
    · split
      · rename_i st2 heq2
        have hst2 := congrArg Prod.snd heq2
        simp only [] at hst2
        split
        · rename_i st3 heq3
          injection heq3 with h3 h4
          subst h4
          right; right
          simp [← hst2, popRefresh_trace]
        · rename_i s2 j2 st3 heq3
          injection heq3 with h3 h4
          subst h4
          split
          · right; right
            simp [← hst2, popRefresh_trace]
          · right; right
            simp [← hst2, popRefresh_trace]
      · rename_i st2 heq2
        have hst2 := congrArg Prod.snd heq2
        simp only [] at hst2
        right; left
        simp [← hst2, popRefresh_trace]
    · split
      · left; rfl
      · left; rfl

/-- The result of a refresh call depends only on the token fields and the
scripted exchange outcomes, not on the GET queues or the trace. -/
theorem popRefresh_fst (now : Int) (st1 st2 : St) (hts : st1.ts = st2.ts)
    (hq : st1.refreshQ = st2.refreshQ) :
    (popRefresh now st1).1 = (popRefresh now st2).1 := by
  unfold popRefresh
  rw [hts, hq]
  split <;> simp

theorem serverLoop_trace (now : Int) (svs : List Server) (st : St) :
    ∃ l, ((serverLoop now svs st).2).trace = st.trace ++ l := by
  induction svs generalizing st with
  | nil => exact ⟨[], by simp [serverLoop]⟩
  | cons sv rest ih =>
    by_cases hsid : pyStr (serverSid sv) = true
    · rcases hg : getItfRetry now st with ⟨r, st1⟩
      have hL : ∃ L, st1.trace = st.trace ++ L := by
        rcases getItfRetry_trace now st with h | h | h <;> (rw [hg] at h; exact ⟨_, h⟩)
      obtain ⟨L, hL⟩ := hL
      cases r with
      | error e =>
        cases e
        exact ⟨L, by simp [serverLoop, hsid, hg, hL]⟩
      | ok j =>
        rcases hl : serverLoop now rest st1 with ⟨r2, st2⟩
        obtain ⟨l2, hih⟩ := ih st1
        rw [hl] at hih
        simp only [] at hih
        cases r2 with
        | error e =>
          cases e
          exact ⟨L ++ l2, by simp [serverLoop, hsid, hg, hl, hih, hL]⟩
        | ok l =>
          exact ⟨L ++ l2, by simp [serverLoop, hsid, hg, hl, hih, hL]⟩
    · obtain ⟨l2, hih⟩ := ih st
      exact ⟨l2, by simp [serverLoop, hsid, hih]⟩

theorem runRestAccountFrom_trace (now : Int) (st : St) :
    ∃ l, ((runRestAccountFrom now st).2).trace = st.trace ++ l := by
  unfold runRestAccountFrom
  by_cases hat : pyStr st.ts.access_token = true
  · rcases hg : getSrvRetry now st with ⟨r, st1⟩
    have hL : ∃ L, st1.trace = st.trace ++ L := by
      rcases getSrvRetry_trace now st with h | h | h <;> (rw [hg] at h; exact ⟨_, h⟩)
    obtain ⟨L, hL⟩ := hL
    cases r with
    | error e =>
      cases e
      exact ⟨L, by simp [hat, hg, hL]⟩
    | ok j =>
      cases hu : unwrapSrv j with
      | none => exact ⟨L, by simp [hat, hg, hu, hL]⟩
      | some servers =>
        rcases hl : serverLoop now servers st1 with ⟨r2, st2⟩
        obtain ⟨l2, hih⟩ := serverLoop_trace now servers st1
        rw [hl] at hih
        simp only [] at hih
        cases r2 with
        | error e =>
          cases e
          exact ⟨L ++ l2, by simp [hat, hg, hu, hl, hih, hL]⟩
        | ok l =>
          exact ⟨L ++ l2, by simp [hat, hg, hu, hl, hih, hL]⟩
  · exact ⟨[], by simp [hat]⟩

/-- When the readiness block decides to refresh, the refresh call is the
first recorded event. -/
theorem ensurePhase_refreshes (now : Int) (st : St)
    (h : (pyStr st.ts.access_token = false ∧ pyStr st.ts.refresh_token = true) ∨
         expiryDue now st.ts.expires_at = true) :
    (ensurePhase now st).trace = st.trace ++ [Ev.refreshCall] := by
  unfold ensurePhase
  rcases h with ⟨h1, h2⟩ | h
  · simp [h1, h2, popRefresh_trace]
  · by_cases hc : (!pyStr st.ts.access_token && pyStr st.ts.refresh_token) = true
    · simp [hc, popRefresh_trace]
    · simp [hc, h, popRefresh_trace]

/-- Claim C1: for a REST account the token-readiness logic behaves exactly
as specified — if the stored access token is absent (Python-falsy) and a
refresh token is present, a refresh is attempted; otherwise, if the stored
expiry is present (non-zero) and `now >= expires_at - 60`, a refresh is
attempted; otherwise the stored token fields enter the status check
unchanged.  In the two refresh cases the refresh call is the very first
recorded event of the account's run, hence it precedes every status
request (`getServers` / `getIfaces`). -/
theorem ensure_valid_refresh_policy (now : Int) (st0 : St) (h0 : st0.trace = []) :
    ((pyStr st0.ts.access_token = false ∧ pyStr st0.ts.refresh_token = true) →
      ((runRestAccount now st0).2).trace.head? = some Ev.refreshCall) ∧
    ((pyStr st0.ts.access_token = true ∨ pyStr st0.ts.refresh_token = false) →
      expiryDue now st0.ts.expires_at = true →
      ((runRestAccount now st0).2).trace.head? = some Ev.refreshCall) ∧
    ((pyStr st0.ts.access_token = true ∨ pyStr st0.ts.refresh_token = false) →
      expiryDue now st0.ts.expires_at = false →
      ensurePhase now st0 = st0) := by
  refine ⟨?_, ?_, ?_⟩
  · intro h
    have he := ensurePhase_refreshes now st0 (Or.inl h)
    obtain ⟨l, hl⟩ := runRestAccountFrom_trace now (ensurePhase now st0)
    unfold runRestAccount
    rw [hl, he, h0]
    simp
  · intro _ hdue
    have he := ensurePhase_refreshes now st0 (Or.inr hdue)
    obtain ⟨l, hl⟩ := runRestAccountFrom_trace now (ensurePhase now st0)
    unfold runRestAccount
    rw [hl, he, h0]
    simp
  · intro h hdue
    unfold ensurePhase
    rcases h with h | h <;> simp [h, hdue]

/-- Witness for C1: an account with no access token but a refresh token —
the run's first event is the refresh call. -/
theorem ensure_valid_refresh_policy_witness :
    ((runRestAccount 50
        ⟨⟨none, some "rt", none⟩, [RefreshOutcome.netErr], [], [], []⟩).2).trace.head? =
      some Ev.refreshCall :=
  (ensure_valid_refresh_policy 50
      ⟨⟨none, some "rt", none⟩, [RefreshOutcome.netErr], [], [], []⟩ rfl).1
    (by exact ⟨rfl, rfl⟩)

/-- Claim C3: on a 401-class response the checker performs at most one
token refresh and retries the failing request at most once (the event
counts bound both getters); when the single refresh fails, or the retried
request fails again, the getter surfaces an error — and a failed servers
request makes the whole account's check report `callFailed` — with no
further refreshes, retries or loops. -/
theorem unauthorized_single_refresh_single_retry (now : Int) (st : St)
    (h0 : st.trace = []) :
    (((getSrvRetry now st).2).trace.count Ev.refreshCall ≤ 1 ∧
     ((getSrvRetry now st).2).trace.count Ev.getServers ≤ 2 ∧
     ((getItfRetry now st).2).trace.count Ev.refreshCall ≤ 1 ∧
     ((getItfRetry now st).2).trace.count Ev.getIfaces ≤ 2) ∧
    (∀ j q, st.itfQ = some (401, j) :: q →
      (popRefresh now st).1 = false →
      (getItfRetry now st).1 = Except.error ()) ∧
    (∀ j r2 q2, st.itfQ = some (401, j) :: r2 :: q2 →
      (popRefresh now st).1 = true →
      (∀ s2 j2, r2 = some (s2, j2) → httpFail s2) →
      (getItfRetry now st).1 = Except.error ()) ∧
    ((getSrvRetry now st).1 = Except.error () →
      pyStr st.ts.access_token = true →
      (runRestAccountFrom now st).1 = RestOutcome.callFailed) := by
  have hs := getSrvRetry_trace now st
  have hi := getItfRetry_trace now st
  rw [h0] at hs hi
  refine ⟨⟨?_, ?_, ?_, ?_⟩, ?_, ?_, ?_⟩
  · rcases hs with h | h | h <;> rw [h] <;> decide
  · rcases hs with h | h | h <;> rw [h] <;> decide
  · rcases hi with h | h | h <;> rw [h] <;> decide
  · rcases hi with h | h | h <;> rw [h] <;> decide
  · intro j q hq hrf
    have hinv : (popRefresh now
        ⟨st.ts, st.refreshQ, st.srvQ, q, st.trace ++ [Ev.getIfaces]⟩).1 =
        (popRefresh now st).1 := popRefresh_fst now _ st rfl rfl
    rcases hpr : popRefresh now
        ⟨st.ts, st.refreshQ, st.srvQ, q, st.trace ++ [Ev.getIfaces]⟩ with ⟨b, st2⟩
    rw [hpr] at hinv
    simp only [] at hinv
    rw [hrf] at hinv
    subst hinv
    simp [getItfRetry, popItf, hq, hpr]
  · intro j r2 q2 hq hrt hfail
    have hinv : (popRefresh now
        ⟨st.ts, st.refreshQ, st.srvQ, r2 :: q2, st.trace ++ [Ev.getIfaces]⟩).1 =
        (popRefresh now st).1 := popRefresh_fst now _ st rfl rfl
    rcases hpr : popRefresh now
        ⟨st.ts, st.refreshQ, st.srvQ, r2 :: q2, st.trace ++ [Ev.getIfaces]⟩ with ⟨b, st2⟩
    rw [hpr] at hinv
    simp only [] at hinv
    rw [hrt] at hinv
    subst hinv
    have hq2 : st2.itfQ = r2 :: q2 := by
      have h := popRefresh_itfQ now
        ⟨st.ts, st.refreshQ, st.srvQ, r2 :: q2, st.trace ++ [Ev.getIfaces]⟩
      rw [hpr] at h
      simpa using h
    rcases r2 with _ | ⟨s2, j2⟩
    · simp [getItfRetry, popItf, hq, hpr, hq2]
    · have hf := hfail s2 j2 rfl
      simp [getItfRetry, popItf, hq, hpr, hq2, hf]
  · intro herr hat
    rcases hg : getSrvRetry now st with ⟨r, st1⟩
    rw [hg] at herr
    simp only [] at herr
    subst herr
    simp [runRestAccountFrom, hat, hg]

/-- Witness for C3 at a concrete input: first interfaces response is a
401, the refresh succeeds, the retried request is 401 again — the getter
reports the error, after exactly one refresh call and two GETs. -/
theorem unauthorized_single_refresh_single_retry_witness :
    (getItfRetry 7
      ⟨⟨some "at", some "rt", none⟩,
       [RefreshOutcome.http 200 ⟨some "n", some "r2", some 60⟩], [],
       [some (401, IfJson.arr []), some (401, IfJson.arr [])], []⟩).1 =
      Except.error () ∧
    ((getItfRetry 7
      ⟨⟨some "at", some "rt", none⟩,
       [RefreshOutcome.http 200 ⟨some "n", some "r2", some 60⟩], [],
       [some (401, IfJson.arr []), some (401, IfJson.arr [])], []⟩).2).trace.count
      Ev.refreshCall ≤ 1 := by
  have h := unauthorized_single_refresh_single_retry 7
    ⟨⟨some "at", some "rt", none⟩,
     [RefreshOutcome.http 200 ⟨some "n", some "r2", some 60⟩], [],
     [some (401, IfJson.arr []), some (401, IfJson.arr [])], []⟩ rfl
  refine ⟨h.2.2.1 (IfJson.arr []) (some (401, IfJson.arr [])) [] rfl (by decide) ?_, h.1.2.2.1⟩
  intro s2 j2 he
  injection he with he2
  injection he2 with ha hb
  subst ha
  decide

/-!
## Claim C4: throttle flag and primary address
-/

theorem throttleScan_true_iff (d : String) (l : List Iface) :
    (throttleScan d l).1 = true ↔ ∃ i ∈ l, i.trafficThrottled = some true := by
  induction l with
  | nil => simp [throttleScan]
  | cons i rest ih =>
    by_cases h : i.trafficThrottled = some true
    · simp [throttleScan, h]
    · have hb : (i.trafficThrottled == some true) = false := by
        simp [h]
      simp [throttleScan, hb, ih, h]

theorem throttleScan_snd (d : String) (l : List Iface) :
    (throttleScan d l).2 =
      (match l.find? (fun i => i.trafficThrottled == some true) with
       | some i => (i.ipv4IP.getD []).headD d
       | none => d) := by
  induction l with
  | nil => simp [throttleScan]
  | cons i rest ih =>
    by_cases h : (i.trafficThrottled == some true) = true
    · rw [show List.find? (fun j => j.trafficThrottled == some true) (i :: rest) =
            some i from List.find?_cons_of_pos _ h]
      simp only [throttleScan, h, if_true]
      cases hip : i.ipv4IP.getD [] <;> simp [hip]
    · have hb : (i.trafficThrottled == some true) = false := by
        simpa using h
      rw [show List.find? (fun j => j.trafficThrottled == some true) (i :: rest) =
            List.find? (fun j => j.trafficThrottled == some true) rest from
          List.find?_cons_of_neg _ (by simp [hb])]
      simp [throttleScan, hb, ih]

theorem firstV4Loop_eq (l : List String) :
    firstV4Loop l = (l.filter (fun ip => !(hasColon ip))).head? := by
  induction l with
  | nil => simp [firstV4Loop]
  | cons x rest ih =>
    by_cases h : hasColon x = true <;> simp [firstV4Loop, h, ih]

theorem first_ipv4_eq (ips : List String) :
    first_ipv4 ips =
      (ips.filter (fun ip => !(hasColon ip))).headD (ips.headD "未知") := by
  unfold first_ipv4
  rw [firstV4Loop_eq]
  cases hf : (ips.filter (fun ip => !(hasColon ip))).head? with
  | some ip => simp [List.headD_eq_head?_getD, hf]
  | none =>
    cases ips with
    | nil => simp [List.headD_eq_head?_getD, hf]
    | cons x rest => simp [List.headD_eq_head?_getD, hf]

/-- The primary-address rule exactly as the claim words it: the first
matching address on the throttled interface, else the FIRST address in the
resource's own address list, else the sentinel. -/
def claimPrimaryIp (ips : List String) (l : List Iface) : String :=
  match l.find? (fun i => i.trafficThrottled == some true) with
  | some i => (i.ipv4IP.getD []).headD (ips.headD "未知")
  | none => ips.headD "未知"

/-- Counterexample to claim C4 as stated: a throttled interface without an
`ipv4IP` entry on a resource whose address list starts with an IPv6
address.  The code falls back to `first_ipv4`, which prefers the first
colon-free (IPv4) address `9.9.9.9`; the claim's rule ("the first address
in the resource's own address list") demands `::1`. -/
theorem throttled_primary_address_counterexample :
    (checkServer
       ⟨some "s1", none, none, some "v1", none, some ["::1", "9.9.9.9"]⟩
       [⟨some true, some []⟩]).2 = "9.9.9.9" ∧
    claimPrimaryIp ["::1", "9.9.9.9"] [⟨some true, some []⟩] = "::1" ∧
    ("9.9.9.9" : String) ≠ "::1" := by
  decide

/-- Claim C4 (amended): a resource is reported throttled iff at least one
interface entry has `trafficThrottled` identically `true`; the reported
primary address is the first `ipv4IP` entry of the first throttled
interface, else the first IPv4 (colon-free) address of the resource's own
address list, else the first address of that list, else the sentinel
`未知` ("unknown"). -/
theorem throttled_iff_and_primary_address (d : String) (l : List Iface)
    (ips : List String) :
    ((throttleScan d l).1 = true ↔ ∃ i ∈ l, i.trafficThrottled = some true) ∧
    ((throttleScan d l).2 =
      (match l.find? (fun i => i.trafficThrottled == some true) with
       | some i => (i.ipv4IP.getD []).headD d
       | none => d)) ∧
    (first_ipv4 ips =
      (ips.filter (fun ip => !(hasColon ip))).headD (ips.headD "未知")) :=
  ⟨throttleScan_true_iff d l, throttleScan_snd d l, first_ipv4_eq ips⟩

/-!
## Claim C5: behaviour when one resource's detail fetch fails
-/

/-- A SOAP interface record (`hasattr` + `getattr(..., False) is True`). -/
structure SoapIface where
  trafficThrottled : Option Bool
deriving Repr, DecidableEq

/-- Detail of one SOAP VPS (`getVServerInformation` result; `none` below
stands for the call raising). -/
structure SoapInfo where
  ips : List String
  serverInterfaces : List SoapIface
deriving Repr, DecidableEq

/-- The SOAP per-resource loop (lines 652-673): each resource name paired
with its detail-fetch result.  A failed fetch logs a warning naming that
resource and the loop continues with the next resource; returns the
throttled entries and the resource names whose fetch failed. -/
def soapLoop : List (String × Option SoapInfo) → List String × List String
  | [] => ([], [])
  | (vname, none) :: rest =>
    ((soapLoop rest).1, vname :: (soapLoop rest).2)
  | (vname, some info) :: rest =>
    (if info.serverInterfaces.any (fun i => i.trafficThrottled == some true) then
       mkEntry vname (info.ips.headD "未知") :: (soapLoop rest).1
     else (soapLoop rest).1,
     (soapLoop rest).2)

theorem soapLoop_append (l1 l2 : List (String × Option SoapInfo)) :
    soapLoop (l1 ++ l2) =
      ((soapLoop l1).1 ++ (soapLoop l2).1, (soapLoop l1).2 ++ (soapLoop l2).2) := by
  induction l1 with
  | nil => simp [soapLoop]
  | cons p rest ih =>
    rcases p with ⟨v, oi⟩
    cases oi with
    | none => simp [soapLoop, ih]
    | some info =>
      by_cases h : info.serverInterfaces.any (fun i => i.trafficThrottled == some true) = true <;>
        simp [soapLoop, ih, h]

/-- Counterexample to claim C5 as stated: a REST account with two servers
whose FIRST interfaces request raises.  The enclosing `try` of line 550
catches the exception at account level: the whole account reports
`REST 调用失败`, no throttle result is produced for the second server (its
interfaces endpoint is never even queried — only one `getIfaces` event). -/
theorem one_resource_failure_counterexample :
    (runRestAccount 1000
      ⟨⟨some "tok", some "rt", none⟩, [],
       [some (200, SrvJson.arr
         [⟨some "s1", none, none, some "v1", none, some ["1.2.3.4"]⟩,
          ⟨some "s2", none, none, some "v2", none, some ["9.9.9.9"]⟩])],
       [none], []⟩).1 = RestOutcome.callFailed ∧
    ((runRestAccount 1000
      ⟨⟨some "tok", some "rt", none⟩, [],
       [some (200, SrvJson.arr
         [⟨some "s1", none, none, some "v1", none, some ["1.2.3.4"]⟩,
          ⟨some "s2", none, none, some "v2", none, some ["9.9.9.9"]⟩])],
       [none], []⟩).2).trace.count Ev.getIfaces = 1 := by
  decide

/-- Claim C5 (amended): only the LEGACY_SOAP path isolates per-resource
failures — one resource's failed detail fetch leaves every other
resource's throttle result intact and records a warning naming exactly
that resource; in the REST path a failed interfaces fetch aborts the
whole account's check (account-level warning, no per-resource results). -/
theorem one_resource_failure_isolation (pre post : List (String × Option SoapInfo))
    (v : String) (now : Int) (sv : Server) (rest : List Server) (st : St)
    (q : List (Option (Int × IfJson))) :
    ((soapLoop (pre ++ (v, none) :: post)).1 =
      (soapLoop pre).1 ++ (soapLoop post).1) ∧
    ((soapLoop (pre ++ (v, none) :: post)).2 =
      (soapLoop pre).2 ++ v :: (soapLoop post).2) ∧
    (pyStr (serverSid sv) = true → st.itfQ = none :: q →
      (serverLoop now (sv :: rest) st).1 = Except.error ()) := by
  refine ⟨?_, ?_, ?_⟩
  · rw [soapLoop_append]
    simp [soapLoop]
  · rw [soapLoop_append]
    simp [soapLoop]
  · intro hsid hq
    simp [serverLoop, hsid, getItfRetry, popItf, hq]

/-- Witness for C5 (amended) at concrete inputs: a three-resource SOAP
account whose middle fetch fails still reports the third resource's
throttled entry, and a REST account whose first interfaces request raises
reports an account-level error. -/
theorem one_resource_failure_isolation_witness :
    ((soapLoop ([("a", some ⟨["1.1.1.1"], [⟨some false⟩]⟩)] ++ ("b", none) ::
        [("c", some ⟨["2.2.2.2"], [⟨some true⟩]⟩)])).1 = ["• c (2.2.2.2)"]) ∧
    ((soapLoop ([("a", some ⟨["1.1.1.1"], [⟨some false⟩]⟩)] ++ ("b", none) ::
        [("c", some ⟨["2.2.2.2"], [⟨some true⟩]⟩)])).2 = ["b"]) ∧
    ((serverLoop 5
        [⟨some "s1", none, none, some "v1", none, some ["1.2.3.4"]⟩,
         ⟨some "s2", none, none, some "v2", none, some ["9.9.9.9"]⟩]
        ⟨⟨some "tok", some "rt", none⟩, [], [], [none], []⟩).1 =
      Except.error ()) := by
  have h := one_resource_failure_isolation
    [("a", some ⟨["1.1.1.1"], [⟨some false⟩]⟩)]
    [("c", some ⟨["2.2.2.2"], [⟨some true⟩]⟩)] "b" 5
    ⟨some "s1", none, none, some "v1", none, some ["1.2.3.4"]⟩
    [⟨some "s2", none, none, some "v2", none, some ["9.9.9.9"]⟩]
    ⟨⟨some "tok", some "rt", none⟩, [], [], [none], []⟩ []
  refine ⟨?_, ?_, h.2.2 (by decide) rfl⟩
  · rw [h.1]; decide
  · rw [h.2.1]; decide

/-!
## Claim C6: the end-of-run notification decision (lines 676-698)
-/

/-- One `_notify(title, text, success)` call. -/
structure Notif where
  title : String
  text : String
  success : Bool
deriving Repr, DecidableEq

/-- Alert body: per account with a non-empty throttled list, a `【name】`
header followed by its entries. -/
def alertLines : List (String × List String) → List String
  | [] => []
  | (n, lst) :: rest =>
    if lst.isEmpty then alertLines rest
    else ("【" ++ n ++ "】") :: lst ++ alertLines rest

/-- Trailing warnings block (`注意：`), present only when warnings exist. -/
def warnLines (warns : List String) : List String :=
  if warns.isEmpty then []
  else "" :: "注意：" :: warns.map (fun w => "- " ++ w)

/-- All-clear body: one count line per account. -/
def okLines (ok_counts : List (String × Nat)) : List String :=
  ok_counts.map (fun p => "• " ++ p.1 ++ "：共 " ++ toString p.2 ++ " 台，均未被限速")

/-- The aggregation-end decision of lines 676-698: the notifications sent
(in order) given the per-account throttled map, the all-clear counts, the
collected warnings and the `notify_all_ok` switch. -/
def summaryNotifs (throttled_map : List (String × List String))
    (ok_counts : List (String × Nat)) (warns : List String)
    (notify_all_ok : Bool) : List Notif :=
  if throttled_map.any (fun p => !p.2.isEmpty) then
    [⟨"⚠️ VPS 被限速（多账户）",
      String.intercalate "\n" (alertLines throttled_map ++ warnLines warns), false⟩]
  else if notify_all_ok then
    [⟨"🟢 所有账户 VPS 正常",
      String.intercalate "\n" (okLines ok_counts ++ warnLines warns), true⟩]
  else []

/-- Counterexample to claim C6 as stated: a run in which one account
failed (a warning was collected), nothing is throttled and all-clear
notification is disabled sends NO notification at all — the error
condition is silent, contradicting "a run that encountered an error
condition (any warning) is never silent". -/
theorem notification_decision_counterexample :
    summaryNotifs [("B", [])] [("B", 3)] ["[A] REST 调用失败"] false = [] ∧
    (["[A] REST 调用失败"] : List String) ≠ [] := by
  decide

/-- Claim C6 (amended): every run ends in AT MOST one notification — an
alert (failure-flagged) iff some account has a non-empty throttled list;
otherwise an all-clear summary (success-flagged, warnings appended) iff
all-clear notification is enabled; otherwise nothing is sent, even when
warnings were collected, so a warning-only run with all-clear notification
disabled is silent. -/
theorem notification_decision (tm : List (String × List String))
    (oc : List (String × Nat)) (warns : List String) (ok : Bool) :
    ((summaryNotifs tm oc warns ok).length ≤ 1) ∧
    ((∃ p ∈ tm, p.2 ≠ []) →
      summaryNotifs tm oc warns ok =
        [⟨"⚠️ VPS 被限速（多账户）",
          String.intercalate "\n" (alertLines tm ++ warnLines warns), false⟩]) ∧
    ((∀ p ∈ tm, p.2 = []) → ok = true →
      summaryNotifs tm oc warns ok =
        [⟨"🟢 所有账户 VPS 正常",
          String.intercalate "\n" (okLines oc ++ warnLines warns), true⟩]) ∧
    ((∀ p ∈ tm, p.2 = []) → ok = false →
      summaryNotifs tm oc warns ok = []) := by
  have hany : (tm.any (fun p => !p.2.isEmpty) = true) ↔ ∃ p ∈ tm, p.2 ≠ [] := by
    simp [List.any_eq_true]
  refine ⟨?_, ?_, ?_, ?_⟩
  · unfold summaryNotifs
    split
    · simp
    · split <;> simp
  · intro h
    unfold summaryNotifs
    rw [if_pos (hany.mpr h)]
  · intro h hok
    have hn : tm.any (fun p => !p.2.isEmpty) = false := by
      rw [← Bool.not_eq_true]
      intro hc
      obtain ⟨p, hp, hne⟩ := hany.mp hc
      exact hne (h p hp)
    unfold summaryNotifs
    rw [if_neg (by simp [hn]), if_pos hok]
  · intro h hok
    have hn : tm.any (fun p => !p.2.isEmpty) = false := by
      rw [← Bool.not_eq_true]
      intro hc
      obtain ⟨p, hp, hne⟩ := hany.mp hc
      exact hne (h p hp)
    unfold summaryNotifs
    rw [if_neg (by simp [hn]), if_neg (by simp [hok])]

/-- Witness for C6 (amended): scenario with account A throttled and a
warning appended — exactly one failure-flagged alert notification. -/
theorem notification_decision_witness :
    summaryNotifs [("A", ["• v1 (5.6.7.8)"]), ("B", [])] [("B", 2)]
      ["[C] SOAP 模式缺少凭据"] true =
      [⟨"⚠️ VPS 被限速（多账户）",
        String.intercalate "\n"
          (alertLines [("A", ["• v1 (5.6.7.8)"]), ("B", [])] ++
           warnLines ["[C] SOAP 模式缺少凭据"]), false⟩] := by
  exact (notification_decision [("A", ["• v1 (5.6.7.8)"]), ("B", [])] [("B", 2)]
    ["[C] SOAP 模式缺少凭据"] true).2.1
    ⟨("A", ["• v1 (5.6.7.8)"]), by simp⟩

/-!
## Claim C8: `revoke_device_token` (lines 984-1019)
-/

/-- Outcome of the revocation POST: a raised network error, or an HTTP
response whose status the code never inspects. -/
inductive PostOutcome where
  | netErr
  | status (code : Int)
deriving Repr, DecidableEq

/-- The revocation logic applied to the targeted slot (an account's token
fields, or the global triple — both branches are line-for-line the same).
Returns the handler's HTTP-style result code and the slot afterwards.
When a refresh token is stored, the POST runs first; if it raises, the
exception propagates to the handler's outer `except`, which returns
`{'code': 500}` — the three clearing assignments never execute. -/
def revoke_device_token (o : PostOutcome) (ts : TokenSet) : Int × TokenSet :=
  if pyStr ts.refresh_token then
    match o with
    | PostOutcome.netErr => (500, ts)
    | PostOutcome.status _ => (200, ⟨none, none, none⟩)
  else (200, ⟨none, none, none⟩)

/-- Claim C8 is right and the code is wrong (code bug): the revocation is
meant to be best-effort/fail-open ("always clears local TokenSet
regardless of revocation call outcome") and indeed a non-200 response
still clears, but a NETWORK ERROR in the POST raises past the clearing
assignments: the stored triple survives intact and the handler returns
500.  Evaluated at the failing input. -/
theorem revoke_not_cleared_on_network_error :
    revoke_device_token PostOutcome.netErr ⟨some "at", some "rt", some 99⟩ =
      (500, ⟨some "at", some "rt", some 99⟩) ∧
    revoke_device_token (PostOutcome.status 503) ⟨some "at", some "rt", some 99⟩ =
      (200, ⟨none, none, none⟩) := by
  decide

/-!
## Claim C9: `poll_device_token` target slot (lines 965-979)
-/

/-- One entry of the `accounts` list, reduced to its id and token slot. -/
structure AccountSlot where
  id : Option String
  tokens : TokenSet
deriving Repr, DecidableEq

/-- The `for a in self._accounts: if a.get('id') == acc_id: ...; break`
loop — writes the token set into the first matching account, `none` when
no account matches. -/
def writeTokensFirst (aid : String) (ts : TokenSet) :
    List AccountSlot → Option (List AccountSlot)
  | [] => none
  | a :: rest =>
    if a.id == some aid then some ({ a with tokens := ts } :: rest)
    else
      match writeTokensFirst aid ts rest with
      | some rest2 => some (a :: rest2)
      | none => none

/-- The save step of `poll_device_token` after a successful token
exchange: returns the new accounts list, the new global token triple, and
the reported `saved_to` string. -/
def poll_device_token_save (acc_id : Option String)
    (accounts : List AccountSlot) (glob newTs : TokenSet) :
    List AccountSlot × TokenSet × String :=
  if pyStr acc_id then
    match writeTokensFirst (acc_id.getD "") newTs accounts with
    | some accounts2 => (accounts2, glob, "account:" ++ acc_id.getD "")
    | none => (accounts, newTs, "global")
  else (accounts, newTs, "global")

/-- Counterexample to claim C9 as stated: a poll naming account id `b`
while the accounts list only contains `a` — the loop finds no match,
`saved_to` stays `global` and the tokens are written to the GLOBAL slot,
not to any slot selected by the explicit parameter. -/
theorem poll_save_counterexample :
    poll_device_token_save (some "b")
      [⟨some "a", ⟨some "x", some "y", some 1⟩⟩]
      ⟨none, none, none⟩ ⟨some "newAT", some "newRT", some 77⟩ =
      ([⟨some "a", ⟨some "x", some "y", some 1⟩⟩],
       ⟨some "newAT", some "newRT", some 77⟩, "global") := by
  decide

/-- Claim C9 (amended): a successful poll that names a (non-empty) account
id present in the accounts list writes the tokens into exactly the first
account with that id — every other account and the global slot are
untouched; when the named id matches no account (or no id is given) the
tokens are saved to the global slot and `saved_to` reports `global`. -/
theorem poll_save_explicit_target (aid : String) (pre post : List AccountSlot)
    (a : AccountSlot) (glob newTs : TokenSet) :
    (aid ≠ "" → a.id = some aid → (∀ b ∈ pre, b.id ≠ some aid) →
      poll_device_token_save (some aid) (pre ++ a :: post) glob newTs =
        (pre ++ { a with tokens := newTs } :: post, glob, "account:" ++ aid)) ∧
    (aid ≠ "" → (∀ b ∈ pre, b.id ≠ some aid) →
      poll_device_token_save (some aid) pre glob newTs = (pre, newTs, "global")) := by
  constructor
  · intro hne ha hpre
    have hw : writeTokensFirst aid newTs (pre ++ a :: post) =
        some (pre ++ { a with tokens := newTs } :: post) := by
      induction pre with
      | nil =>
        simp only [List.nil_append, writeTokensFirst]
        rw [if_pos (by simp [ha])]
      | cons b rest ih =>
        have hb : (b.id == some aid) = false := by
          simpa using hpre b (by simp)
        simp only [List.cons_append, writeTokensFirst, hb, Bool.false_eq_true,
          if_false, List.append_eq]
        rw [ih (fun c hc => hpre c (by simp [hc]))]
    have hps : pyStr (some aid) = true := by
      simp [pyStr, hne]
    simp [poll_device_token_save, hps, hw]
  · intro hne hpre
    have hw : writeTokensFirst aid newTs pre = none := by
      induction pre with
      | nil => rfl
      | cons b rest ih =>
        have hb : (b.id == some aid) = false := by
          simpa using hpre b (by simp)
        simp only [writeTokensFirst, hb, Bool.false_eq_true, if_false]
        rw [ih (fun c hc => hpre c (by simp [hc]))]
    have hps : pyStr (some aid) = true := by
      simp [pyStr, hne]
    simp [poll_device_token_save, hps, hw]

/-- Witness for C9 (amended): polling with id `b` against accounts
`[a, b, c]` updates exactly `b`, leaving the global slot and the other
accounts untouched. -/
theorem poll_save_explicit_target_witness :
    poll_device_token_save (some "b")
      [⟨some "a", ⟨none, none, none⟩⟩, ⟨some "b", ⟨none, none, none⟩⟩,
       ⟨some "c", ⟨none, none, none⟩⟩]
      ⟨some "g", none, none⟩ ⟨some "newAT", some "newRT", some 77⟩ =
      ([⟨some "a", ⟨none, none, none⟩⟩,
        ⟨some "b", ⟨some "newAT", some "newRT", some 77⟩⟩,
        ⟨some "c", ⟨none, none, none⟩⟩],
       ⟨some "g", none, none⟩, "account:b") := by
  have h := (poll_save_explicit_target "b"
    [⟨some "a", ⟨none, none, none⟩⟩]
    [⟨some "c", ⟨none, none, none⟩⟩]
    ⟨some "b", ⟨none, none, none⟩⟩
    ⟨some "g", none, none⟩ ⟨some "newAT", some "newRT", some 77⟩).1
    (by decide) rfl (by decide)
  simpa using h

/-!
## Claim C10: the enabled-account filter (lines 477-481)
-/

/-- One raw entry of the configured `accounts` list, reduced to the field
the filter reads.  The surrounding `Option` models a `None`/empty record
(Python-falsy dict), which the `a and ...` test skips. -/
structure AccCfg where
  enabled : Option Bool
deriving Repr, DecidableEq

/-- `[a for a in self._accounts if a and a.get('enabled', True)]`. -/
def tryAccounts : List (Option AccCfg) → List AccCfg
  | [] => []
  | none :: rest => tryAccounts rest
  | some a :: rest =>
    if a.enabled.getD true then a :: tryAccounts rest else tryAccounts rest

/-- Claim C10: an account record that lacks the `enabled` key is treated
as enabled (the `get` default is `True`); exactly the records whose
`enabled` is explicitly false are dropped, and `None`/empty records are
skipped without affecting the rest. -/
theorem enabled_filter_defaults_true (accs : List (Option AccCfg)) (a : AccCfg) :
    (a ∈ tryAccounts accs ↔ some a ∈ accs ∧ a.enabled ≠ some false) ∧
    (tryAccounts (none :: accs) = tryAccounts accs) := by
  constructor
  · induction accs with
    | nil => simp [tryAccounts]
    | cons o rest ih =>
      cases o with
      | none => simpa [tryAccounts] using ih
      | some b =>
        rcases hbe : b.enabled with _ | v
        · simp only [tryAccounts, hbe, Option.getD_none, if_true, List.mem_cons,
            Option.some.injEq, ih]
          constructor
          · rintro (rfl | ⟨h1, h2⟩)
            · exact ⟨Or.inl rfl, by simp [hbe]⟩
            · exact ⟨Or.inr h1, h2⟩
          · rintro ⟨h1 | h1, h2⟩
            · exact Or.inl h1
            · exact Or.inr ⟨h1, h2⟩
        · cases v
          · simp only [tryAccounts, hbe, Option.getD_some, Bool.false_eq_true,
              if_false, List.mem_cons, Option.some.injEq, ih]
            constructor
            · rintro ⟨h1, h2⟩
              exact ⟨Or.inr h1, h2⟩
            · rintro ⟨h1 | h1, h2⟩
              · subst h1
                exact absurd hbe h2
              · exact ⟨h1, h2⟩
          · simp only [tryAccounts, hbe, Option.getD_some, if_true, List.mem_cons,
              Option.some.injEq, ih]
            constructor
            · rintro (rfl | ⟨h1, h2⟩)
              · exact ⟨Or.inl rfl, by simp [hbe]⟩
              · exact ⟨Or.inr h1, h2⟩
            · rintro ⟨h1 | h1, h2⟩
              · exact Or.inl h1
              · exact Or.inr ⟨h1, h2⟩
  · rfl
